/-
Verification of the Clean Air Routes backend (src/backend/server.py).

The computational core of the server is shallowly embedded here:
  * Python floats are modelled as exact rationals (ℚ).
  * `random.uniform(a, b)` is modelled as `a + (b - a) * u` where `u` is a
    value taken from an explicit stream `r : ℕ → ℚ` of unit draws
    (`0 ≤ r n ≤ 1`); every randomness consumer threads an explicit index
    into the stream, in the exact order the Python code draws.
  * `round(x, n)` (Python round-half-to-even) is modelled by `pyRound`.
  * Python exceptions are modelled with `Except PyExc`; a `try/except`
    block is a `match` on the body's result.
  * `x ** 0.5` (real square root, irrational in general) is modelled by an
    abstract parameter `sqrtq : ℚ → ℚ`; theorems that need it assume only
    that it maps nonnegative inputs to nonnegative outputs.
-/
import Mathlib

set_option maxHeartbeats 1000000

/-! ### Python primitives -/

/-- Python `round` to an integer, rounding halves to the nearest even
integer (banker's rounding), as Python 3 `round(x)` does. -/
def pyRoundInt (x : ℚ) : ℤ :=
  if x - ⌊x⌋ < 1/2 then ⌊x⌋
  else if 1/2 < x - ⌊x⌋ then ⌊x⌋ + 1
  else if ⌊x⌋ % 2 = 0 then ⌊x⌋ else ⌊x⌋ + 1

/-- Python `round(x, n)` for `n ≥ 0` digits. -/
def pyRound (x : ℚ) (n : ℕ) : ℚ := (pyRoundInt (x * 10 ^ n) : ℚ) / 10 ^ n

/-- Python `random.uniform(a, b)`: `a + (b - a) * u` for a unit draw `u`. -/
def uniform (a b u : ℚ) : ℚ := a + (b - a) * u

/-- Python substring membership `pat in s`. -/
def strContains (s pat : String) : Bool :=
  (List.range (s.data.length + 1)).any fun k => List.isPrefixOf pat.data (s.data.drop k)

/-- Python exceptions reachable in the modelled core. -/
inductive PyExc where
  | zeroDivisionError : PyExc
  | valueError (detail : String) : PyExc
  | httpException (status : ℕ) (detail : String) : PyExc
deriving DecidableEq

/-! ### Data model (src/backend/server.py, `Models` section) -/

/-- Location model: latitude, longitude, address label. -/
structure Location where
  lat : ℚ
  lng : ℚ
  address : String
deriving DecidableEq

/-- Waypoint dictionary `{"lat": ..., "lng": ...}`. -/
structure Coord where
  lat : ℚ
  lng : ℚ
deriving DecidableEq

/-- PollutantData model: six optional numeric fields (the `timestamp`
field is transport glue and is not modelled). -/
structure PollutantData where
  no2 : Option ℚ := none
  o3 : Option ℚ := none
  so2 : Option ℚ := none
  co2 : Option ℚ := none
  methane : Option ℚ := none
  aqi : Option ℚ := none
deriving DecidableEq

/-! ### Pollutant Sampler (`fetch_tempo_data`, server.py lines 93-130) -/

/-- Body of the `try:` block of `fetch_tempo_data`.  The five
`random.uniform` calls consume stream draws `r i, …, r (i+4)` in order.
No operation in the body can raise, so the body always returns `.ok`. -/
def fetch_tempo_body (lat lng : ℚ) (r : ℕ → ℚ) (i : ℕ) : Except PyExc PollutantData :=
  let base_no2 := max 5.0 (15.0 + uniform (-8) 12 (r i) + |lat - 40| * 0.5)
  let base_o3 := max 10.0 (35.0 + uniform (-15) 25 (r (i + 1)))
  let base_so2 := max 1.0 (8.0 + uniform (-4) 8 (r (i + 2)))
  let base_co2 := max 380.0 (410.0 + uniform (-20) 30 (r (i + 3)))
  let base_methane := max 1.8 (1.9 + uniform (-0.2) 0.3 (r (i + 4)))
  let aqi := min 500 (max 0 (base_no2 * 2.5 + base_o3 * 1.2 + base_so2 * 5.0))
  .ok { no2 := some (pyRound base_no2 2)
        o3 := some (pyRound base_o3 2)
        so2 := some (pyRound base_so2 2)
        co2 := some (pyRound base_co2 2)
        methane := some (pyRound base_methane 3)
        aqi := some (pyRound aqi 1) }

/-- Fixed fallback reading returned by the `except` clause of
`fetch_tempo_data`. -/
def FALLBACK_READING : PollutantData :=
  { no2 := some 12.5, o3 := some 32.0, so2 := some 5.5
    co2 := some 415.0, methane := some 1.85, aqi := some 65.0 }

/-- Model of a Python `try: return body except Exception: return fb`. -/
def catchWithDefault (body : Except PyExc PollutantData) (fb : PollutantData) : PollutantData :=
  match body with
  | .ok d => d
  | .error _ => fb

/-- `fetch_tempo_data(lat, lng)`: the try/except wrapper around the body. -/
def fetch_tempo_data (lat lng : ℚ) (r : ℕ → ℚ) (i : ℕ) : PollutantData :=
  catchWithDefault (fetch_tempo_body lat lng r i) FALLBACK_READING

/-! ### City catalog (`US_CITIES`, server.py lines 133-154) -/

/-- Entry of the `US_CITIES` dict. -/
structure CatalogCity where
  name : String
  lat : ℚ
  lng : ℚ
  state : String
deriving DecidableEq

/-- The 20-city catalog, in Python dict insertion order. -/
def US_CITIES : List CatalogCity :=
  [ ⟨"New York, NY", 40.7128, -74.0060, "NY"⟩
  , ⟨"Los Angeles, CA", 34.0522, -118.2437, "CA"⟩
  , ⟨"Chicago, IL", 41.8781, -87.6298, "IL"⟩
  , ⟨"Houston, TX", 29.7604, -95.3698, "TX"⟩
  , ⟨"Phoenix, AZ", 33.4484, -112.0740, "AZ"⟩
  , ⟨"Philadelphia, PA", 39.9526, -75.1652, "PA"⟩
  , ⟨"San Antonio, TX", 29.4241, -98.4936, "TX"⟩
  , ⟨"San Diego, CA", 32.7157, -117.1611, "CA"⟩
  , ⟨"Dallas, TX", 32.7767, -96.7970, "TX"⟩
  , ⟨"San Jose, CA", 37.3382, -121.8863, "CA"⟩
  , ⟨"Denver, CO", 39.7392, -104.9903, "CO"⟩
  , ⟨"Las Vegas, NV", 36.1699, -115.1398, "NV"⟩
  , ⟨"Oklahoma City, OK", 35.4676, -97.5164, "OK"⟩
  , ⟨"Albuquerque, NM", 35.0844, -106.6504, "NM"⟩
  , ⟨"Kansas City, MO", 39.0997, -94.5786, "MO"⟩
  , ⟨"St. Louis, MO", 38.6270, -90.1994, "MO"⟩
  , ⟨"Nashville, TN", 36.1627, -86.7816, "TN"⟩
  , ⟨"Atlanta, GA", 33.7490, -84.3880, "GA"⟩
  , ⟨"Indianapolis, IN", 39.7684, -86.1581, "IN"⟩
  , ⟨"Columbus, OH", 39.9612, -82.9988, "OH"⟩ ]

/-! ### City Corridor Selector (`find_intermediate_cities`, lines 156-200) -/

/-- Intermediate-city record appended by the selector loop
(`name`, `lat`, `lng`, `state`, `route_position`). -/
structure RouteCity where
  name : String
  lat : ℚ
  lng : ℚ
  state : String
  route_position : ℚ
deriving DecidableEq

/-- Loop of `find_intermediate_cities` over the catalog.  For each city in
the margin-expanded bounding box the scalar projection
`route_distance = dot(dest-source, city-source) / |dest-source|²` is
computed; Python raises `ZeroDivisionError` there when the denominator is
zero, before the `[0.1, 0.9]` band test. -/
def collectCities (source_lat source_lng dest_lat dest_lng
    min_lat max_lat min_lng max_lng lat_margin lng_margin : ℚ) :
    List CatalogCity → Except PyExc (List RouteCity)
  | [] => .ok []
  | c :: rest =>
    if min_lat - lat_margin ≤ c.lat ∧ c.lat ≤ max_lat + lat_margin ∧
       min_lng - lng_margin ≤ c.lng ∧ c.lng ≤ max_lng + lng_margin then
      if (dest_lat - source_lat) ^ 2 + (dest_lng - source_lng) ^ 2 = 0 then
        .error .zeroDivisionError
      else
        let route_distance :=
          ((dest_lat - source_lat) * (c.lat - source_lat) +
           (dest_lng - source_lng) * (c.lng - source_lng)) /
          ((dest_lat - source_lat) ^ 2 + (dest_lng - source_lng) ^ 2)
        if 0.1 ≤ route_distance ∧ route_distance ≤ 0.9 then
          match collectCities source_lat source_lng dest_lat dest_lng
              min_lat max_lat min_lng max_lng lat_margin lng_margin rest with
          | .error e => .error e
          | .ok tail => .ok (⟨c.name, c.lat, c.lng, c.state, route_distance⟩ :: tail)
        else
          collectCities source_lat source_lng dest_lat dest_lng
            min_lat max_lat min_lng max_lng lat_margin lng_margin rest
    else
      collectCities source_lat source_lng dest_lat dest_lng
        min_lat max_lat min_lng max_lng lat_margin lng_margin rest

/-- Ordering of intermediate cities by position along the route, used by
`intermediate_cities.sort(key=lambda x: x["route_position"])`.  Python
`list.sort` is stable; `List.insertionSort` with a `≤` ordering is its
stable counterpart. -/
def posLE (a b : RouteCity) : Prop := a.route_position ≤ b.route_position

instance : DecidableRel posLE := fun a b =>
  inferInstanceAs (Decidable (a.route_position ≤ b.route_position))

instance : IsTotal RouteCity posLE := ⟨fun a b => le_total a.route_position b.route_position⟩

instance : IsTrans RouteCity posLE := ⟨fun _ _ _ h1 h2 => le_trans h1 h2⟩

/-- `find_intermediate_cities(source_lat, source_lng, dest_lat, dest_lng,
route_type)`. -/
def find_intermediate_cities (source_lat source_lng dest_lat dest_lng : ℚ)
    (route_type : String) : Except PyExc (List RouteCity) :=
  let min_lat := min source_lat dest_lat
  let max_lat := max source_lat dest_lat
  let min_lng := min source_lng dest_lng
  let max_lng := max source_lng dest_lng
  let lat_margin := (max_lat - min_lat) * 0.3
  let lng_margin := (max_lng - min_lng) * 0.3
  match collectCities source_lat source_lng dest_lat dest_lng
      min_lat max_lat min_lng max_lng lat_margin lng_margin US_CITIES with
  | .error e => .error e
  | .ok cs =>
    let sorted := List.insertionSort posLE cs
    if route_type = "Fastest Route" then .ok (sorted.take 2)
    else if route_type = "Cleanest Air Route" then .ok (sorted.take 4)
    else .ok (sorted.take 3)

/-! ### Route Synthesizer and Portfolio Builder
(`calculate_routes_with_pollution`, server.py lines 203-341) -/

/-- RouteOption model: a pydantic `BaseModel` whose declared fields are
exactly these (the `id` uuid is transport glue and is not modelled).
`waypoint_details` is NOT a declared field, which is why the post-hoc
assignment `route.waypoint_details = waypoint_details` at server.py:334
raises `ValueError` (pydantic rejects setting undeclared attributes under
its default config); that statement is modelled in `buildRoutes`. -/
structure RouteOption where
  route_name : String
  distance_km : ℚ
  duration_minutes : ℚ
  pollution_score : ℚ
  waypoints : List Coord
  pollutant_levels : List (String × ℚ)
  recommendations : List String
deriving DecidableEq

/-- One entry of `route_configs`. -/
structure RouteConfig where
  name : String
  pollution_multiplier : ℚ
  distance_multiplier : ℚ
deriving DecidableEq

/-- `{"name": "Fastest Route", "pollution_multiplier": 1.2, "distance_multiplier": 1.0}`. -/
def cfgFastest : RouteConfig := ⟨"Fastest Route", 1.2, 1.0⟩

/-- `{"name": "Cleanest Air Route", "pollution_multiplier": 0.6, "distance_multiplier": 1.15}`. -/
def cfgCleanest : RouteConfig := ⟨"Cleanest Air Route", 0.6, 1.15⟩

/-- `{"name": "Balanced Route", "pollution_multiplier": 0.8, "distance_multiplier": 1.08}`. -/
def cfgBalanced : RouteConfig := ⟨"Balanced Route", 0.8, 1.08⟩

/-- The `route_configs` list. -/
def route_configs : List RouteConfig := [cfgFastest, cfgCleanest, cfgBalanced]

/-- Per-city jitter: `random.uniform(-0.05, 0.05) if "Fastest" not in name
else 0`.  City number `k` of a non-Fastest route consumes draw `r (i+k)`;
a Fastest route consumes no draw. -/
def routeVariation (name : String) (r : ℕ → ℚ) (i k : ℕ) : ℚ :=
  if strContains name "Fastest" then 0 else uniform (-0.05) 0.05 (r (i + k))

/-- Intermediate-city waypoints: each city contributes
`{"lat": city.lat + variation, "lng": city.lng + variation}` (the same
`variation` draw on both axes).  `k` is the index of the first city. -/
def cityWaypoints (name : String) (r : ℕ → ℚ) (i : ℕ) :
    List RouteCity → ℕ → List Coord
  | [], _ => []
  | c :: rest, k =>
    let variation := routeVariation name r i k
    ⟨c.lat + variation, c.lng + variation⟩ :: cityWaypoints name r i rest (k + 1)

/-- Waypoint sequence: source, jittered intermediate cities, destination. -/
def waypointsOf (source destination : Location) (name : String)
    (cities : List RouteCity) (r : ℕ → ℚ) (i : ℕ) : List Coord :=
  ⟨source.lat, source.lng⟩ :: (cityWaypoints name r i cities 0 ++ [⟨destination.lat, destination.lng⟩])

/-- Number of stream draws the jitter loop consumes. -/
def jitterDraws (name : String) (numCities : ℕ) : ℕ :=
  if strContains name "Fastest" then 0 else numCities

/-- Pollution samples along the route, one `fetch_tempo_data` call (five
draws) per waypoint, in sequence order starting at stream index `j`. -/
def samplesOf (r : ℕ → ℚ) : List Coord → ℕ → List PollutantData
  | [], _ => []
  | w :: rest, j => fetch_tempo_data w.lat w.lng r j :: samplesOf r rest (j + 5)

/-- Python `sum(x for x in fields if x)`: `None` and falsy `0.0` entries
are skipped. -/
def truthySum : List (Option ℚ) → ℚ
  | [] => 0
  | none :: rest => truthySum rest
  | some v :: rest => (if v = 0 then 0 else v) + truthySum rest

/-- `sum(p.f for p in samples if p.f) / len(samples)`. -/
def avgOf (samples : List PollutantData) (field : PollutantData → Option ℚ) : ℚ :=
  truthySum (samples.map field) / (samples.length : ℚ)

/-- Samples of one route: jitter draws come first, then five draws per
waypoint. -/
def routeSamples (source destination : Location) (name : String)
    (cities : List RouteCity) (r : ℕ → ℚ) (i : ℕ) : List PollutantData :=
  samplesOf r (waypointsOf source destination name cities r i) (i + jitterDraws name cities.length)

/-- `base_score = avg_no2*2.0 + avg_o3*1.5 + avg_so2*4.0 + (avg_co2-400)*0.1`. -/
def baseScoreOf (samples : List PollutantData) : ℚ :=
  avgOf samples PollutantData.no2 * 2.0 + avgOf samples PollutantData.o3 * 1.5 +
    avgOf samples PollutantData.so2 * 4.0 + (avgOf samples PollutantData.co2 - 400) * 0.1

/-- `pollution_score = min(100, max(0, base_score * pollution_multiplier))`
(the value before the final 1-digit rounding). -/
def scoreRawOf (samples : List PollutantData) (pollution_multiplier : ℚ) : ℚ :=
  min 100 (max 0 (baseScoreOf samples * pollution_multiplier))

/-- Sum of segment lengths `111 * ((Δlat)² + (Δlng)²) ** 0.5` between
consecutive waypoints; the real square root is the parameter `sqrtq`. -/
def segmentSum (sqrtq : ℚ → ℚ) : List Coord → ℚ
  | a :: b :: rest =>
    111 * sqrtq ((b.lat - a.lat) ^ 2 + (b.lng - a.lng) ^ 2) + segmentSum sqrtq (b :: rest)
  | _ => 0

/-- The four high-severity recommendations for `pollution_score > 70`. -/
def highRecs : List String :=
  [ "🚨 High pollution detected: Wear N95 mask recommended"
  , "🚗 Keep windows closed, use recirculated air"
  , "⚠️ Avoid outdoor exercise along this route"
  , "🌅 Consider traveling during early morning hours" ]

/-- The three moderate recommendations for `50 < pollution_score ≤ 70`. -/
def moderateRecs : List String :=
  [ "⚠️ Moderate pollution: Sensitive individuals take precautions"
  , "🏥 Not recommended for those with respiratory conditions"
  , "😷 Light mask recommended for extended exposure" ]

/-- The two positive notices for `pollution_score ≤ 50`. -/
def goodRecs : List String :=
  [ "✅ Good air quality along this route"
  , "🌿 Safe for outdoor activities and exercise" ]

/-- Rush-hour warning appended when `avg_no2 > 25`. -/
def rushHourRec : String := "🚗 High NO₂: Avoid rush hour traffic (7-9 AM, 5-7 PM)"

/-- Ozone-timing warning appended when `avg_o3 > 60`. -/
def ozoneRec : String := "☀️ High ozone: Best to travel before 10 AM or after 7 PM"

/-- Industrial-area warning appended when `avg_so2 > 10`. -/
def industrialRec : String := "🏭 High SO₂ detected: Avoid industrial areas"

/-- Tier-based part of the recommendation list. -/
def tierRecs (pollution_score : ℚ) : List String :=
  if 70 < pollution_score then highRecs
  else if 50 < pollution_score then moderateRecs
  else goodRecs

/-- Pollutant-specific warnings appended after the tier-based part. -/
def pollutantRecs (avg_no2 avg_o3 avg_so2 : ℚ) : List String :=
  (if 25 < avg_no2 then [rushHourRec] else []) ++
    (if 60 < avg_o3 then [ozoneRec] else []) ++
    (if 10 < avg_so2 then [industrialRec] else [])

/-- Full recommendation list built by the loop body. -/
def mkRecommendations (pollution_score avg_no2 avg_o3 avg_so2 : ℚ) : List String :=
  tierRecs pollution_score ++ pollutantRecs avg_no2 avg_o3 avg_so2

/-- Body of the `for config in route_configs` loop once the intermediate
cities are known: waypoints, sampling, averaging, scoring, distance,
duration and recommendations, assembled into a `RouteOption`. -/
def assembleRoute (sqrtq : ℚ → ℚ) (source destination : Location)
    (config : RouteConfig) (cities : List RouteCity) (r : ℕ → ℚ) (i : ℕ) : RouteOption :=
  let wps := waypointsOf source destination config.name cities r i
  let samples := routeSamples source destination config.name cities r i
  let pollution_score := scoreRawOf samples config.pollution_multiplier
  let total_distance := segmentSum sqrtq wps
  let distance := pyRound (total_distance * config.distance_multiplier) 1
  let duration := pyRound (distance * 1.3) 0
  { route_name := config.name
    distance_km := distance
    duration_minutes := duration
    pollution_score := pyRound pollution_score 1
    waypoints := wps
    pollutant_levels :=
      [ ("no2", pyRound (avgOf samples PollutantData.no2) 2)
      , ("o3", pyRound (avgOf samples PollutantData.o3) 2)
      , ("so2", pyRound (avgOf samples PollutantData.so2) 2)
      , ("co2", pyRound (avgOf samples PollutantData.co2) 2)
      , ("methane", pyRound (avgOf samples PollutantData.methane) 3) ]
    recommendations :=
      mkRecommendations pollution_score (avgOf samples PollutantData.no2)
        (avgOf samples PollutantData.o3) (avgOf samples PollutantData.so2) }

/-- Ordering of route options by pollution score, used by
`routes.sort(key=lambda r: r.pollution_score)` (stable). -/
def scoreLE (a b : RouteOption) : Prop := a.pollution_score ≤ b.pollution_score

instance : DecidableRel scoreLE := fun a b =>
  inferInstanceAs (Decidable (a.pollution_score ≤ b.pollution_score))

instance : IsTotal RouteOption scoreLE := ⟨fun a b => le_total a.pollution_score b.pollution_score⟩

instance : IsTrans RouteOption scoreLE := ⟨fun _ _ _ h1 h2 => le_trans h1 h2⟩

/-- The `ValueError` pydantic raises for the undeclared-attribute
assignment `route.waypoint_details = waypoint_details` (server.py:334). -/
def WAYPOINT_DETAILS_ERROR : PyExc :=
  .valueError "\"RouteOption\" object has no field \"waypoint_details\""

/-- The `for config in route_configs` loop: for each config find the
intermediate cities (which can raise `ZeroDivisionError`), build the
`RouteOption` (lines 225-331, which completes), and then execute
`route.waypoint_details = waypoint_details` (line 334).  `RouteOption`
declares no `waypoint_details` field and no `extra` config, so pydantic's
`__setattr__` raises `ValueError` there — on the first iteration, before
any `routes.append`, so the loop never completes and no later iteration
runs. -/
def buildRoutes (sqrtq : ℚ → ℚ) (source destination : Location) :
    List RouteConfig → (ℕ → ℚ) → ℕ → Except PyExc (List RouteOption)
  | [], _, _ => .ok []
  | config :: _rest, r, i =>
    match find_intermediate_cities source.lat source.lng destination.lat destination.lng
        config.name with
    | .error e => .error e
    | .ok cities =>
      let _route := assembleRoute sqrtq source destination config cities r i
      .error WAYPOINT_DETAILS_ERROR

/-- `calculate_routes_with_pollution(source, destination)`: run the loop
over the three configs, then sort by pollution score (cleanest first).
Because the loop raises on its first iteration, the sort and return are
dead code: this function always propagates an error. -/
def calculate_routes_with_pollution (sqrtq : ℚ → ℚ) (source destination : Location)
    (r : ℕ → ℚ) (i : ℕ) : Except PyExc (List RouteOption) :=
  match buildRoutes sqrtq source destination route_configs r i with
  | .error e => .error e
  | .ok routes => .ok (List.insertionSort scoreLE routes)

/-! ### Alert Evaluator (`get_pollution_alerts`, server.py lines 461-495) -/

/-- Saved-route record as read back from storage; only the fields the
alert loop touches are modelled (`id`, `route_name`, `source`,
`alerts_enabled`). -/
structure SavedRouteRec where
  id : String
  route_name : String
  source : Coord
  alerts_enabled : Bool
deriving DecidableEq

/-- PollutionAlert record (the uuid `id` and `created_at` timestamp are
glue and are not modelled). -/
structure PollutionAlertRec where
  route_id : String
  alert_type : String
  message : String
  severity : String
deriving DecidableEq

/-- Single-quote character, written via its code point. -/
def squote : String := String.singleton (Char.ofNat 39)

/-- Textual rendering of the AQI number inside the alert f-string. -/
def aqiText (a : ℚ) : String := toString a

/-- Message of the alert f-string: `High pollution alert for route
(route_name) - AQI: (aqi)`, with the route name in single quotes. -/
def alertMessage (route_name : String) (a : ℚ) : String :=
  "High pollution alert for route " ++ squote ++ route_name ++ squote ++ " - AQI: " ++ aqiText a

/-- Alert decision for one saved route, given the resampled reading:
`if pollution_data.aqi and pollution_data.aqi > 100` (Python truthiness
also rejects an AQI of exactly 0), severity `"high"` when `aqi < 150`
else `"extreme"`. -/
def route_alert (route : SavedRouteRec) (d : PollutantData) : Option PollutionAlertRec :=
  match d.aqi with
  | none => none
  | some a =>
    if a ≠ 0 ∧ 100 < a then
      some { route_id := route.id
             alert_type := "high_pollution"
             message := alertMessage route.route_name a
             severity := if a < 150 then "high" else "extreme" }
    else none

/-- Loop of `get_pollution_alerts` over the user's saved routes with
`alerts_enabled = True` (the storage query filter), resampling pollution
at each route's source coordinate; each `fetch_tempo_data` call consumes
five stream draws. -/
def alertLoop (r : ℕ → ℚ) : List SavedRouteRec → ℕ → List PollutionAlertRec
  | [], _ => []
  | route :: rest, i =>
    match route_alert route (fetch_tempo_data route.source.lat route.source.lng r i) with
    | some alert => alert :: alertLoop r rest (i + 5)
    | none => alertLoop r rest (i + 5)

/-- `get_pollution_alerts(user_id)` core: the db query keeps only routes
with `alerts_enabled: True`, then the loop emits at most one alert per
route. -/
def get_pollution_alerts (saved_routes : List SavedRouteRec) (r : ℕ → ℚ) (i : ℕ) :
    List PollutionAlertRec :=
  alertLoop r (saved_routes.filter fun route => route.alerts_enabled) i

/-! ### Saved-route deletion (`delete_saved_route`, server.py lines 447-459) -/

/-- `db.saved_routes.delete_one({"id": route_id}).deleted_count`: `1` when
some stored route has the id, else `0`. -/
def delete_one_count (db : List SavedRouteRec) (route_id : String) : ℕ :=
  if db.any fun route => route.id = route_id then 1 else 0

/-- Body of the `try:` block of `delete_saved_route`: raise
`HTTPException(404, "Route not found")` when nothing was deleted, else
return the success message. -/
def delete_saved_route_body (db : List SavedRouteRec) (route_id : String) :
    Except PyExc String :=
  if delete_one_count db route_id = 0 then
    .error (.httpException 404 "Route not found")
  else
    .ok "Route deleted successfully"

/-- `delete_saved_route(route_id)`: the `except Exception` clause catches
every exception raised in the body — including the `HTTPException(404)`
itself, since FastAPI's `HTTPException` subclasses `Exception` — and
re-raises `HTTPException(500, "Error deleting route")`. -/
def delete_saved_route (db : List SavedRouteRec) (route_id : String) :
    Except PyExc String :=
  match delete_saved_route_body db route_id with
  | .ok m => .ok m
  | .error _ => .error (.httpException 500 "Error deleting route")

/-! ### Helpers and witness fixtures -/

/-- Extract the payload of an `Except` (helper for evaluating witnesses). -/
def exOk {ε : Type u} {α : Type v} (e : Except ε α) (d : α) : α :=
  match e with
  | .ok a => a
  | .error _ => d

/-- Witness fixture: a request source at a non-catalog point. -/
def wPoint : Location := ⟨0, 0, "Origin"⟩

/-- Witness fixture: a second location distinct from `wPoint`. -/
def wPointB : Location := ⟨3, 4, "Elsewhere"⟩

/-- Witness fixture: the all-zero unit-draw stream. -/
def wRand : ℕ → ℚ := fun _ => 0

/-- Witness fixture: the Fastest-profile corridor cities from New York to
Los Angeles. -/
def wCitiesF : List RouteCity :=
  exOk (find_intermediate_cities 40.7128 (-74.0060) 34.0522 (-118.2437) "Fastest Route") []

/-- Witness fixture: a saved route with alerts enabled. -/
def wAlertRoute : SavedRouteRec := ⟨"route-1", "Home to Work", ⟨40, -74⟩, true⟩

/-- Witness fixture: a reading whose AQI is 120. -/
def wReading120 : PollutantData :=
  { no2 := some 12.5, o3 := some 32.0, so2 := some 5.5
    co2 := some 415.0, methane := some 1.85, aqi := some 120 }

/-- Witness fixture: an intermediate city for the jitter claim. -/
def wCity : RouteCity := ⟨"Testville", 1, 2, "TS", 0.5⟩

/-! ### Helper lemmas: rounding -/

theorem floor_le_pyRoundInt (x : ℚ) : ⌊x⌋ ≤ pyRoundInt x := by
  unfold pyRoundInt
  split_ifs <;> omega

theorem le_pyRoundInt (n : ℤ) (x : ℚ) (h : (n : ℚ) ≤ x) : n ≤ pyRoundInt x :=
  le_trans (Int.le_floor.mpr h) (floor_le_pyRoundInt x)

theorem pyRoundInt_le (n : ℤ) (x : ℚ) (h : x ≤ (n : ℚ)) : pyRoundInt x ≤ n := by
  have hf : ⌊x⌋ ≤ n := by
    have := Int.floor_le_floor h
    rwa [Int.floor_intCast] at this
  have hfl : (⌊x⌋ : ℚ) ≤ x := Int.floor_le x
  unfold pyRoundInt
  split_ifs with h1 h2 h3
  · exact hf
  · have : (⌊x⌋ : ℚ) < (n : ℚ) := by linarith
    have : ⌊x⌋ < n := by exact_mod_cast this
    omega
  · exact hf
  · have h1' : (1 : ℚ)/2 ≤ x - ⌊x⌋ := le_of_not_lt h1
    have : (⌊x⌋ : ℚ) < (n : ℚ) := by linarith
    have : ⌊x⌋ < n := by exact_mod_cast this
    omega

theorem abs_pyRoundInt_sub (x : ℚ) : |(pyRoundInt x : ℚ) - x| ≤ 1/2 := by
  have hfl : (⌊x⌋ : ℚ) ≤ x := Int.floor_le x
  have hfu : x < (⌊x⌋ : ℚ) + 1 := Int.lt_floor_add_one x
  unfold pyRoundInt
  split_ifs with h1 h2 h3 <;> rw [abs_le] <;> push_cast <;> constructor <;> linarith

theorem pyRound_ge (x a : ℚ) (n : ℕ) (m : ℤ) (hm : (m : ℚ) = a * 10 ^ n) (h : a ≤ x) :
    a ≤ pyRound x n := by
  unfold pyRound
  have h10 : (0 : ℚ) < 10 ^ n := by positivity
  rw [le_div_iff h10]
  have hmx : (m : ℚ) ≤ x * 10 ^ n := by
    rw [hm]; exact mul_le_mul_of_nonneg_right h (le_of_lt h10)
  have h2 : m ≤ pyRoundInt (x * 10 ^ n) := le_pyRoundInt _ _ hmx
  calc a * 10 ^ n = (m : ℚ) := hm.symm
    _ ≤ (pyRoundInt (x * 10 ^ n) : ℚ) := by exact_mod_cast h2

theorem pyRound_le (x a : ℚ) (n : ℕ) (m : ℤ) (hm : (m : ℚ) = a * 10 ^ n) (h : x ≤ a) :
    pyRound x n ≤ a := by
  unfold pyRound
  have h10 : (0 : ℚ) < 10 ^ n := by positivity
  rw [div_le_iff h10]
  have hmx : x * 10 ^ n ≤ (m : ℚ) := by
    rw [hm]; exact mul_le_mul_of_nonneg_right h (le_of_lt h10)
  have h2 : pyRoundInt (x * 10 ^ n) ≤ m := pyRoundInt_le _ _ hmx
  calc (pyRoundInt (x * 10 ^ n) : ℚ) ≤ (m : ℚ) := by exact_mod_cast h2
    _ = a * 10 ^ n := hm

theorem abs_pyRound_sub (x : ℚ) (n : ℕ) : |pyRound x n - x| ≤ 1 / (2 * 10 ^ n) := by
  unfold pyRound
  have h10 : (0 : ℚ) < 10 ^ n := by positivity
  have h := abs_pyRoundInt_sub (x * 10 ^ n)
  have heq : (pyRoundInt (x * 10 ^ n) : ℚ) / 10 ^ n - x =
      ((pyRoundInt (x * 10 ^ n) : ℚ) - x * 10 ^ n) / 10 ^ n := by field_simp; ring
  rw [heq, abs_div, abs_of_pos h10, div_le_div_iff h10 (by positivity)]
  have := mul_le_mul_of_nonneg_right h (le_of_lt (by positivity : (0 : ℚ) < 2 * 10 ^ n))
  linarith

/-! ### Helper lemmas: clamping and uniform noise -/

theorem abs_clamp_sub_clamp (lo hi x y : ℚ) :
    |min hi (max lo x) - min hi (max lo y)| ≤ |x - y| := by
  have h1 : |min hi (max lo x) - min hi (max lo y)| ≤
      max |hi - hi| |max lo x - max lo y| := abs_min_sub_min_le_max hi (max lo x) hi (max lo y)
  have h2 : |max lo x - max lo y| ≤ |x - y| := by
    rw [max_comm lo x, max_comm lo y]
    exact abs_max_sub_max_le_abs x y lo
  have h3 : max |hi - hi| |max lo x - max lo y| = |max lo x - max lo y| := by
    simp [abs_nonneg]
  rw [h3] at h1
  exact le_trans h1 h2

theorem uniform_bounds (a b u : ℚ) (hab : a ≤ b) (h0 : 0 ≤ u) (h1 : u ≤ 1) :
    a ≤ uniform a b u ∧ uniform a b u ≤ b := by
  unfold uniform
  constructor <;> nlinarith

/-! ### Helper lemmas: the corridor selector -/

theorem collectCities_band (slat slng dlat dlng mla mxa mln mxn lm gm : ℚ)
    (l : List CatalogCity) :
    ∀ (out : List RouteCity),
      collectCities slat slng dlat dlng mla mxa mln mxn lm gm l = .ok out →
      ∀ e ∈ out, (0.1 : ℚ) ≤ e.route_position ∧ e.route_position ≤ 0.9 := by
  induction l with
  | nil =>
    intro out h e he
    simp only [collectCities, Except.ok.injEq] at h
    subst h
    simp at he
  | cons c rest ih =>
    intro out h e he
    simp only [collectCities] at h
    split_ifs at h with h1 h2 h3
    · cases hrec : collectCities slat slng dlat dlng mla mxa mln mxn lm gm rest with
      | error e' => rw [hrec] at h; simp at h
      | ok tail =>
        rw [hrec] at h
        simp only [Except.ok.injEq] at h
        subst h
        rcases List.mem_cons.mp he with rfl | htail
        · exact h3
        · exact ih tail hrec e htail
    · exact ih out h e he
    · exact ih out h e he

theorem collectCities_ok (slat slng dlat dlng mla mxa mln mxn lm gm : ℚ)
    (hden : (dlat - slat) ^ 2 + (dlng - slng) ^ 2 ≠ 0) (l : List CatalogCity) :
    ∃ out, collectCities slat slng dlat dlng mla mxa mln mxn lm gm l = .ok out := by
  induction l with
  | nil => exact ⟨[], rfl⟩
  | cons c rest ih =>
    obtain ⟨out, hout⟩ := ih
    simp only [collectCities]
    split_ifs with h1 h2
    · rw [hout]; exact ⟨_, rfl⟩
    · exact ⟨out, hout⟩
    · exact ⟨out, hout⟩

/-! ### Helper lemmas: waypoints -/

theorem cityWaypoints_length (name : String) (r : ℕ → ℚ) (i : ℕ) (cities : List RouteCity) :
    ∀ k, (cityWaypoints name r i cities k).length = cities.length := by
  induction cities with
  | nil => intro k; rfl
  | cons c rest ih => intro k; simp [cityWaypoints, ih]

theorem cityWaypoints_get (name : String) (r : ℕ → ℚ) (i : ℕ) (cities : List RouteCity) :
    ∀ (k0 k : ℕ) (c : RouteCity), cities[k]? = some c →
      (cityWaypoints name r i cities k0)[k]? =
        some ⟨c.lat + routeVariation name r i (k0 + k), c.lng + routeVariation name r i (k0 + k)⟩ := by
  induction cities with
  | nil => intro k0 k c hc; simp at hc
  | cons c0 rest ih =>
    intro k0 k c hc
    cases k with
    | zero =>
      simp only [List.getElem?_cons_zero, Option.some.injEq] at hc
      subst hc
      simp [cityWaypoints]
    | succ k' =>
      simp only [List.getElem?_cons_succ] at hc
      have h2 := ih (k0 + 1) k' c hc
      simp only [cityWaypoints, List.getElem?_cons_succ]
      rw [h2]
      have : k0 + 1 + k' = k0 + (k' + 1) := by omega
      rw [this]

theorem waypointsOf_head (source destination : Location) (name : String)
    (cities : List RouteCity) (r : ℕ → ℚ) (i : ℕ) :
    (waypointsOf source destination name cities r i).head? = some ⟨source.lat, source.lng⟩ := rfl

theorem waypointsOf_getLast (source destination : Location) (name : String)
    (cities : List RouteCity) (r : ℕ → ℚ) (i : ℕ) :
    (waypointsOf source destination name cities r i).getLast? =
      some ⟨destination.lat, destination.lng⟩ := by
  unfold waypointsOf
  rw [show (⟨source.lat, source.lng⟩ : Coord) ::
        (cityWaypoints name r i cities 0 ++ [(⟨destination.lat, destination.lng⟩ : Coord)]) =
      (⟨source.lat, source.lng⟩ :: cityWaypoints name r i cities 0) ++
        [(⟨destination.lat, destination.lng⟩ : Coord)] from by simp]
  exact List.getLast?_concat _

theorem waypointsOf_get (source destination : Location) (name : String)
    (cities : List RouteCity) (r : ℕ → ℚ) (i k : ℕ) (c : RouteCity)
    (hc : cities[k]? = some c) :
    (waypointsOf source destination name cities r i)[k + 1]? =
      some ⟨c.lat + routeVariation name r i k, c.lng + routeVariation name r i k⟩ := by
  have hlen : k < cities.length := by
    by_contra hk
    rw [List.getElem?_eq_none (le_of_not_lt hk)] at hc
    cases hc
  unfold waypointsOf
  rw [List.getElem?_cons_succ,
    List.getElem?_append_left (by rw [cityWaypoints_length]; exact hlen)]
  have := cityWaypoints_get name r i cities 0 k c hc
  rwa [Nat.zero_add] at this

/-! ### Helper lemmas: distance and score -/

theorem segmentSum_nonneg (sqrtq : ℚ → ℚ) (hsq : ∀ x, 0 ≤ x → 0 ≤ sqrtq x) :
    ∀ l : List Coord, 0 ≤ segmentSum sqrtq l := by
  intro l
  induction l with
  | nil => simp [segmentSum]
  | cons a t ih =>
    cases t with
    | nil => simp [segmentSum]
    | cons b rest =>
      have h1 : 0 ≤ sqrtq ((b.lat - a.lat) ^ 2 + (b.lng - a.lng) ^ 2) := hsq _ (by positivity)
      simp only [segmentSum]
      nlinarith [ih]

theorem scoreRawOf_nonneg (samples : List PollutantData) (pm : ℚ) :
    0 ≤ scoreRawOf samples pm :=
  le_min (by norm_num) (le_max_left 0 _)

theorem scoreRawOf_le_100 (samples : List PollutantData) (pm : ℚ) :
    scoreRawOf samples pm ≤ 100 :=
  min_le_left _ _

/-! ### Helper lemmas: the assembled route -/

theorem assembleRoute_waypoints (sqrtq : ℚ → ℚ) (source destination : Location)
    (config : RouteConfig) (cities : List RouteCity) (r : ℕ → ℚ) (i : ℕ) :
    (assembleRoute sqrtq source destination config cities r i).waypoints =
      waypointsOf source destination config.name cities r i := rfl

theorem assembleRoute_name (sqrtq : ℚ → ℚ) (source destination : Location)
    (config : RouteConfig) (cities : List RouteCity) (r : ℕ → ℚ) (i : ℕ) :
    (assembleRoute sqrtq source destination config cities r i).route_name = config.name := rfl

theorem assembleRoute_score (sqrtq : ℚ → ℚ) (source destination : Location)
    (config : RouteConfig) (cities : List RouteCity) (r : ℕ → ℚ) (i : ℕ) :
    (assembleRoute sqrtq source destination config cities r i).pollution_score =
      pyRound (scoreRawOf (routeSamples source destination config.name cities r i)
        config.pollution_multiplier) 1 := rfl

theorem assembleRoute_distance (sqrtq : ℚ → ℚ) (source destination : Location)
    (config : RouteConfig) (cities : List RouteCity) (r : ℕ → ℚ) (i : ℕ) :
    (assembleRoute sqrtq source destination config cities r i).distance_km =
      pyRound (segmentSum sqrtq (waypointsOf source destination config.name cities r i) *
        config.distance_multiplier) 1 := rfl

theorem assembleRoute_duration (sqrtq : ℚ → ℚ) (source destination : Location)
    (config : RouteConfig) (cities : List RouteCity) (r : ℕ → ℚ) (i : ℕ) :
    (assembleRoute sqrtq source destination config cities r i).duration_minutes =
      pyRound ((assembleRoute sqrtq source destination config cities r i).distance_km * 1.3) 0 :=
  rfl

theorem assembleRoute_recs (sqrtq : ℚ → ℚ) (source destination : Location)
    (config : RouteConfig) (cities : List RouteCity) (r : ℕ → ℚ) (i : ℕ) :
    (assembleRoute sqrtq source destination config cities r i).recommendations =
      mkRecommendations
        (scoreRawOf (routeSamples source destination config.name cities r i)
          config.pollution_multiplier)
        (avgOf (routeSamples source destination config.name cities r i) PollutantData.no2)
        (avgOf (routeSamples source destination config.name cities r i) PollutantData.o3)
        (avgOf (routeSamples source destination config.name cities r i) PollutantData.so2) := rfl

/-! ### Helper lemmas: the portfolio builder -/

theorem cfgFastest_name : cfgFastest.name = "Fastest Route" := rfl

theorem cfgCleanest_name : cfgCleanest.name = "Cleanest Air Route" := rfl

theorem cfgBalanced_name : cfgBalanced.name = "Balanced Route" := rfl

/-! ### Helper lemmas: AQI consistency under rounding -/

theorem aqi_round_consistency (bn bo bs : ℚ) :
    |pyRound (min 500 (max 0 (bn * 2.5 + bo * 1.2 + bs * 5.0))) 1 -
      min 500 (max 0 (pyRound bn 2 * 2.5 + pyRound bo 2 * 1.2 + pyRound bs 2 * 5.0))| ≤ 0.1 := by
  have hA := abs_pyRound_sub (min 500 (max 0 (bn * 2.5 + bo * 1.2 + bs * 5.0))) 1
  have hL := abs_clamp_sub_clamp 0 500 (bn * 2.5 + bo * 1.2 + bs * 5.0)
    (pyRound bn 2 * 2.5 + pyRound bo 2 * 1.2 + pyRound bs 2 * 5.0)
  have hn := abs_le.mp (abs_pyRound_sub bn 2)
  have ho := abs_le.mp (abs_pyRound_sub bo 2)
  have hs := abs_le.mp (abs_pyRound_sub bs 2)
  have hB : |bn * 2.5 + bo * 1.2 + bs * 5.0 -
      (pyRound bn 2 * 2.5 + pyRound bo 2 * 1.2 + pyRound bs 2 * 5.0)| ≤ 87/2000 := by
    rw [abs_le]
    obtain ⟨hn1, hn2⟩ := hn
    obtain ⟨ho1, ho2⟩ := ho
    obtain ⟨hs1, hs2⟩ := hs
    norm_num at hn1 hn2 ho1 ho2 hs1 hs2 ⊢
    constructor <;> nlinarith
  have htri := abs_sub_le
    (pyRound (min 500 (max 0 (bn * 2.5 + bo * 1.2 + bs * 5.0))) 1)
    (min 500 (max 0 (bn * 2.5 + bo * 1.2 + bs * 5.0)))
    (min 500 (max 0 (pyRound bn 2 * 2.5 + pyRound bo 2 * 1.2 + pyRound bs 2 * 5.0)))
  have h01 : (0.1 : ℚ) = 1/10 := by norm_num
  rw [h01]
  have hA' : |pyRound (min 500 (max 0 (bn * 2.5 + bo * 1.2 + bs * 5.0))) 1 -
      min 500 (max 0 (bn * 2.5 + bo * 1.2 + bs * 5.0))| ≤ 1/20 := by
    norm_num at hA
    linarith
  linarith [le_trans hL hB]

/-! ### Claim theorems -/

/-- C1: the claim says deleting a saved route by an id that was never
inserted is surfaced as a distinct not-found condition.  The code violates
this: the loop body does raise `HTTPException(404, "Route not found")`,
but the surrounding `except Exception` clause catches that very exception
and re-raises the generic `HTTPException(500, "Error deleting route")`
computation-fault response, so the caller cannot distinguish not-found
from a generic fault.  Evaluated on an empty store and a never-inserted
id: the body produces the intended 404, the handler returns the 500. -/
theorem C1_delete_not_found_masked :
    delete_saved_route_body [] "never-inserted-id" =
      .error (.httpException 404 "Route not found") ∧
    delete_saved_route [] "never-inserted-id" =
      .error (.httpException 500 "Error deleting route") :=
  ⟨rfl, rfl⟩

/-- C2: the claim says the City Corridor Selector returns an empty list
and never raises a division-by-zero error when source equals destination,
for any catalog city position.  The code has no such special case: with
source = destination = (40.7128, -74.0060) (the catalog position of New
York), the degenerate bounding box contains the New York catalog entry
and the projection divides by `|dest - source|² = 0`, raising
`ZeroDivisionError`. -/
theorem C2_zero_length_segment_divzero :
    find_intermediate_cities 40.7128 (-74.0060) 40.7128 (-74.0060) "Fastest Route" =
      .error PyExc.zeroDivisionError := by
  norm_num [find_intermediate_cities, collectCities, US_CITIES, min_self, max_self]

/-- C6: the Pollutant Sampler never fails observably: the try-block body
always returns a reading (no operation in it can raise), so
`fetch_tempo_data` always returns that reading; and the catch wrapper
maps any internal fault to the fixed fallback reading
(no2=12.5, o3=32.0, so2=5.5, co2=415.0, methane=1.85, aqi=65.0). -/
theorem C6_sampler_never_fails :
    (∀ (lat lng : ℚ) (r : ℕ → ℚ) (i : ℕ),
      ∃ d, fetch_tempo_body lat lng r i = .ok d ∧ fetch_tempo_data lat lng r i = d) ∧
    (∀ e fb, catchWithDefault (.error e) fb = fb) ∧
    FALLBACK_READING =
      { no2 := some 12.5, o3 := some 32.0, so2 := some 5.5
        co2 := some 415.0, methane := some 1.85, aqi := some 65.0 } :=
  ⟨fun lat lng r i => ⟨_, rfl, rfl⟩, fun _ _ => rfl, rfl⟩

/-- C3: for every coordinate and every randomness draw within the
documented noise bounds, the sampled reading satisfies no2 ≥ 5, o3 ≥ 10,
so2 ≥ 1, co2 ≥ 380, methane ≥ 1.8, 0 ≤ aqi ≤ 500, and the AQI equals
`clamp(0, 500, no2*2.5 + o3*1.2 + so2*5.0)` computed from the same
sampled pollutant values, up to the documented rounding (2 decimals for
the pollutants, 1 for the AQI; tolerance 0.1). -/
theorem C3_sampler_output_bounds (lat lng : ℚ) (r : ℕ → ℚ) (i : ℕ)
    (hr : ∀ n, 0 ≤ r n ∧ r n ≤ 1) :
    (fetch_tempo_data lat lng r i).no2.isSome = true ∧
    (fetch_tempo_data lat lng r i).o3.isSome = true ∧
    (fetch_tempo_data lat lng r i).so2.isSome = true ∧
    (fetch_tempo_data lat lng r i).co2.isSome = true ∧
    (fetch_tempo_data lat lng r i).methane.isSome = true ∧
    (fetch_tempo_data lat lng r i).aqi.isSome = true ∧
    5 ≤ (fetch_tempo_data lat lng r i).no2.getD 0 ∧
    10 ≤ (fetch_tempo_data lat lng r i).o3.getD 0 ∧
    1 ≤ (fetch_tempo_data lat lng r i).so2.getD 0 ∧
    380 ≤ (fetch_tempo_data lat lng r i).co2.getD 0 ∧
    1.8 ≤ (fetch_tempo_data lat lng r i).methane.getD 0 ∧
    0 ≤ (fetch_tempo_data lat lng r i).aqi.getD 0 ∧
    (fetch_tempo_data lat lng r i).aqi.getD 0 ≤ 500 ∧
    |(fetch_tempo_data lat lng r i).aqi.getD 0 -
      min 500 (max 0 ((fetch_tempo_data lat lng r i).no2.getD 0 * 2.5 +
        (fetch_tempo_data lat lng r i).o3.getD 0 * 1.2 +
        (fetch_tempo_data lat lng r i).so2.getD 0 * 5.0))| ≤ 0.1 := by
  simp only [fetch_tempo_data, fetch_tempo_body, catchWithDefault,
    Option.getD_some, Option.isSome_some]
  refine ⟨trivial, trivial, trivial, trivial, trivial, trivial, ?_, ?_, ?_, ?_, ?_, ?_, ?_, ?_⟩
  · exact pyRound_ge _ 5 2 500 (by norm_num)
      (le_trans (by norm_num) (le_max_left _ _))
  · exact pyRound_ge _ 10 2 1000 (by norm_num)
      (le_trans (by norm_num) (le_max_left _ _))
  · exact pyRound_ge _ 1 2 100 (by norm_num)
      (le_trans (by norm_num) (le_max_left _ _))
  · exact pyRound_ge _ 380 2 38000 (by norm_num)
      (le_trans (by norm_num) (le_max_left _ _))
  · exact pyRound_ge _ 1.8 3 1800 (by norm_num) (le_max_left _ _)
  · exact pyRound_ge _ 0 1 0 (by norm_num) (le_min (by norm_num) (le_max_left 0 _))
  · exact pyRound_le _ 500 1 5000 (by norm_num) (min_le_left _ _)
  · exact aqi_round_consistency _ _ _

/-- Witness for C3: the noise-bound hypothesis is satisfied by the
all-zero draw stream; the AQI of the sample at (40, -74) is within the
documented bounds. -/
theorem C3_sampler_output_bounds_witness :
    0 ≤ (fetch_tempo_data 40 (-74) wRand 0).aqi.getD 0 ∧
    (fetch_tempo_data 40 (-74) wRand 0).aqi.getD 0 ≤ 500 ∧
    5 ≤ (fetch_tempo_data 40 (-74) wRand 0).no2.getD 0 := by
  obtain ⟨-, -, -, -, -, -, hno2, -, -, -, -, h0, h500, -⟩ :=
    C3_sampler_output_bounds 40 (-74) wRand 0 (fun n => by constructor <;> norm_num [wRand])
  exact ⟨h0, h500, hno2⟩

/-- Helper: with distinct endpoints the projection denominator is nonzero,
so the selector loop cannot raise and the selector returns a city list. -/
theorem find_ok_of_ne (slat slng dlat dlng : ℚ) (route_type : String)
    (hne : ¬(slat = dlat ∧ slng = dlng)) :
    ∃ cities,
      find_intermediate_cities slat slng dlat dlng route_type = .ok cities := by
  have hden : (dlat - slat) ^ 2 + (dlng - slng) ^ 2 ≠ 0 := by
    intro h0
    apply hne
    have ha : (dlat - slat) ^ 2 ≤ 0 := by nlinarith [sq_nonneg (dlng - slng)]
    have hb : (dlng - slng) ^ 2 ≤ 0 := by nlinarith [sq_nonneg (dlat - slat)]
    have ha' : dlat - slat = 0 := by
      have := le_antisymm ha (sq_nonneg _)
      exact pow_eq_zero_iff (two_ne_zero) |>.mp this
    have hb' : dlng - slng = 0 := by
      have := le_antisymm hb (sq_nonneg _)
      exact pow_eq_zero_iff (two_ne_zero) |>.mp this
    constructor <;> linarith
  obtain ⟨out, hout⟩ := collectCities_ok slat slng dlat dlng
    (min slat dlat) (max slat dlat) (min slng dlng) (max slng dlng)
    ((max slat dlat - min slat dlat) * 0.3) ((max slng dlng - min slng dlng) * 0.3)
    hden US_CITIES
  simp only [find_intermediate_cities]
  rw [hout]
  split_ifs <;> exact ⟨_, rfl⟩

/-- C7: for distinct endpoints the City Corridor Selector succeeds; and
whatever city list it returns has at most the profile's maximum city
count (2 for Fastest, 4 for Cleanest, 3 otherwise), every returned city
has projection parameter in [0.1, 0.9], and the list is sorted ascending
by projection parameter. -/
theorem C7_corridor_selector_bounds (slat slng dlat dlng : ℚ) (route_type : String) :
    (¬(slat = dlat ∧ slng = dlng) →
      ∃ cities,
        find_intermediate_cities slat slng dlat dlng route_type = .ok cities) ∧
    (∀ cities,
      find_intermediate_cities slat slng dlat dlng route_type = .ok cities →
      (route_type = "Fastest Route" → cities.length ≤ 2) ∧
      (route_type = "Cleanest Air Route" → cities.length ≤ 4) ∧
      (route_type ≠ "Fastest Route" → route_type ≠ "Cleanest Air Route" →
        cities.length ≤ 3) ∧
      (∀ c ∈ cities, (0.1 : ℚ) ≤ c.route_position ∧ c.route_position ≤ 0.9) ∧
      List.Sorted posLE cities) := by
  constructor
  · exact find_ok_of_ne slat slng dlat dlng route_type
  · intro cities h
    simp only [find_intermediate_cities] at h
    cases hcol : collectCities slat slng dlat dlng
        (min slat dlat) (max slat dlat) (min slng dlng) (max slng dlng)
        ((max slat dlat - min slat dlat) * 0.3) ((max slng dlng - min slng dlng) * 0.3)
        US_CITIES with
    | error e => rw [hcol] at h; simp at h
    | ok cs =>
      rw [hcol] at h
      have hsorted := List.sorted_insertionSort posLE cs
      have hband := collectCities_band slat slng dlat dlng
        (min slat dlat) (max slat dlat) (min slng dlng) (max slng dlng)
        ((max slat dlat - min slat dlat) * 0.3) ((max slng dlng - min slng dlng) * 0.3)
        US_CITIES cs hcol
      have hmem : ∀ n, ∀ c ∈ (List.insertionSort posLE cs).take n,
          (0.1 : ℚ) ≤ c.route_position ∧ c.route_position ≤ 0.9 := by
        intro n c hc
        exact hband c ((List.mem_insertionSort posLE).mp
          (List.Sublist.mem hc (List.take_sublist n _)))
      have hsorted' : ∀ n, List.Sorted posLE ((List.insertionSort posLE cs).take n) :=
        fun n => List.Pairwise.sublist (List.take_sublist n _) hsorted
      have hlen : ∀ n, ((List.insertionSort posLE cs).take n).length ≤ n := by
        intro n
        rw [List.length_take]
        exact min_le_left _ _
      split_ifs at h with h1 h2
      · simp only [Except.ok.injEq] at h
        subst h
        exact ⟨fun _ => hlen 2,
          fun hC => absurd (h1.symm.trans hC) (by decide),
          fun hF _ => absurd h1 hF, hmem 2, hsorted' 2⟩
      · simp only [Except.ok.injEq] at h
        subst h
        exact ⟨fun hF => absurd hF h1, fun _ => hlen 4,
          fun _ hC => absurd h2 hC, hmem 4, hsorted' 4⟩
      · simp only [Except.ok.injEq] at h
        subst h
        exact ⟨fun hF => absurd hF h1, fun hC => absurd hC h2,
          fun _ _ => hlen 3, hmem 3, hsorted' 3⟩

/-- Witness for C7: the New York → Los Angeles request has distinct
endpoints; the Fastest-profile city list satisfies the bounds. -/
theorem C7_corridor_selector_bounds_witness :
    wCitiesF.length ≤ 2 ∧
    wCitiesF.all (fun c =>
      decide ((0.1 : ℚ) ≤ c.route_position ∧ c.route_position ≤ 0.9)) = true ∧
    List.Sorted posLE wCitiesF := by
  obtain ⟨cities, hc⟩ :=
    (C7_corridor_selector_bounds 40.7128 (-74.0060) 34.0522 (-118.2437) "Fastest Route").1
      (by norm_num)
  have hw : wCitiesF = cities := by unfold wCitiesF; rw [hc]; rfl
  obtain ⟨hF, -, -, hband, hsort⟩ :=
    (C7_corridor_selector_bounds 40.7128 (-74.0060) 34.0522 (-118.2437) "Fastest Route").2
      cities hc
  refine ⟨?_, ?_, ?_⟩
  · rw [hw]; exact hF rfl
  · rw [hw, List.all_eq_true]
    intro c hcm
    rw [decide_eq_true_eq]
    exact hband c hcm
  · rw [hw]; exact hsort

/-- C8: for a saved route with alerts enabled, the Alert Evaluator emits
exactly one alert when the resampled AQI exceeds 100 — severity "high"
for AQI in (100, 150), "extreme" for AQI ≥ 150, with the message built
from the route name and the AQI value — and emits no alert when the AQI
is at most 100 or the reading has no AQI. -/
theorem C8_alert_evaluator (route : SavedRouteRec) (d : PollutantData)
    (r : ℕ → ℚ) (i : ℕ) :
    (route.alerts_enabled = true →
      get_pollution_alerts [route] r i =
        (route_alert route
          (fetch_tempo_data route.source.lat route.source.lng r i)).toList) ∧
    (route.alerts_enabled = false → get_pollution_alerts [route] r i = []) ∧
    (∀ a, d.aqi = some a → 100 < a → a < 150 →
      route_alert route d = some
        ⟨route.id, "high_pollution", alertMessage route.route_name a, "high"⟩) ∧
    (∀ a, d.aqi = some a → 150 ≤ a →
      route_alert route d = some
        ⟨route.id, "high_pollution", alertMessage route.route_name a, "extreme"⟩) ∧
    (∀ a, d.aqi = some a → a ≤ 100 → route_alert route d = none) ∧
    (d.aqi = none → route_alert route d = none) := by
  refine ⟨?_, ?_, ?_, ?_, ?_, ?_⟩
  · intro h
    cases hra : route_alert route (fetch_tempo_data route.source.lat route.source.lng r i) <;>
      simp [get_pollution_alerts, List.filter_cons, h, alertLoop, hra, Option.toList]
  · intro h
    simp [get_pollution_alerts, List.filter_cons, h, alertLoop]
  · intro a ha h1 h2
    have hne : a ≠ 0 := by intro h0; rw [h0] at h1; norm_num at h1
    unfold route_alert
    rw [ha]
    dsimp only
    rw [if_pos ⟨hne, h1⟩, if_pos h2]
  · intro a ha h1
    have h1' : 100 < a := by linarith
    have hne : a ≠ 0 := by intro h0; rw [h0] at h1'; norm_num at h1'
    unfold route_alert
    rw [ha]
    dsimp only
    rw [if_pos ⟨hne, h1'⟩, if_neg (not_lt.mpr h1)]
  · intro a ha h1
    unfold route_alert
    rw [ha]
    dsimp only
    rw [if_neg]
    rintro ⟨-, hgt⟩
    linarith
  · intro h
    simp [route_alert, h]

/-- Witness for C8: a reading with AQI 120 on an alerts-enabled route
yields exactly one "high" alert; the loop output for a single saved route
is the alert decision at its source coordinate. -/
theorem C8_alert_evaluator_witness :
    route_alert wAlertRoute wReading120 =
      some ⟨"route-1", "high_pollution", alertMessage "Home to Work" 120, "high"⟩ ∧
    get_pollution_alerts [wAlertRoute] wRand 0 =
      (route_alert wAlertRoute (fetch_tempo_data 40 (-74) wRand 0)).toList := by
  obtain ⟨hlink, -, hhigh, -, -, -⟩ := C8_alert_evaluator wAlertRoute wReading120 wRand 0
  exact ⟨hhigh 120 rfl (by norm_num) (by norm_num), hlink rfl⟩

/-- C9: the advisory list of every synthesized route is the tier block
for its pollution score — exactly four high-severity warnings when the
score exceeds 70, exactly three moderate warnings when it exceeds 50,
exactly two positive notices otherwise — followed by the appended
pollutant-specific warnings: the rush-hour warning iff average NO2 > 25,
the ozone-timing warning iff average O3 > 60, the industrial-area warning
iff average SO2 > 10; the appended warnings never replace the tier
block. -/
theorem C9_recommendation_tiers (score n o s : ℚ) :
    (70 < score →
      mkRecommendations score n o s = highRecs ++ pollutantRecs n o s) ∧
    (score ≤ 70 → 50 < score →
      mkRecommendations score n o s = moderateRecs ++ pollutantRecs n o s) ∧
    (score ≤ 50 →
      mkRecommendations score n o s = goodRecs ++ pollutantRecs n o s) ∧
    highRecs.length = 4 ∧ moderateRecs.length = 3 ∧ goodRecs.length = 2 ∧
    (rushHourRec ∈ mkRecommendations score n o s ↔ 25 < n) ∧
    (ozoneRec ∈ mkRecommendations score n o s ↔ 60 < o) ∧
    (industrialRec ∈ mkRecommendations score n o s ↔ 10 < s) ∧
    (∀ (sqrtq : ℚ → ℚ) (source destination : Location) (config : RouteConfig)
        (cities : List RouteCity) (r : ℕ → ℚ) (i : ℕ),
      (assembleRoute sqrtq source destination config cities r i).recommendations =
        mkRecommendations
          (scoreRawOf (routeSamples source destination config.name cities r i)
            config.pollution_multiplier)
          (avgOf (routeSamples source destination config.name cities r i) PollutantData.no2)
          (avgOf (routeSamples source destination config.name cities r i) PollutantData.o3)
          (avgOf (routeSamples source destination config.name cities r i)
            PollutantData.so2)) := by
  refine ⟨?_, ?_, ?_, rfl, rfl, rfl, ?_, ?_, ?_, fun _ _ _ _ _ _ _ => rfl⟩
  · intro h
    unfold mkRecommendations tierRecs
    rw [if_pos h]
  · intro h1 h2
    unfold mkRecommendations tierRecs
    rw [if_neg (not_lt.mpr h1), if_pos h2]
  · intro h1
    unfold mkRecommendations tierRecs
    rw [if_neg (not_lt.mpr (by linarith)), if_neg (not_lt.mpr h1)]
  · unfold mkRecommendations tierRecs pollutantRecs
    split_ifs with ht1 h1 h2 h3 h1 h2 h3 ht2 h1 h2 h3 h1 h2 h3 <;>
      simp_all [highRecs, moderateRecs, goodRecs, rushHourRec, ozoneRec, industrialRec]
  · unfold mkRecommendations tierRecs pollutantRecs
    split_ifs with ht1 h1 h2 h3 h1 h2 h3 ht2 h1 h2 h3 h1 h2 h3 <;>
      simp_all [highRecs, moderateRecs, goodRecs, rushHourRec, ozoneRec, industrialRec]
  · unfold mkRecommendations tierRecs pollutantRecs
    split_ifs with ht1 h1 h2 h3 h1 h2 h3 ht2 h1 h2 h3 h1 h2 h3 <;>
      simp_all [highRecs, moderateRecs, goodRecs, rushHourRec, ozoneRec, industrialRec]

/-- Witness for C9: a score of 80 with NO2 average 30 produces the four
high-severity warnings followed by the rush-hour warning. -/
theorem C9_recommendation_tiers_witness :
    (70 : ℚ) < 80 ∧
    mkRecommendations 80 30 10 5 = highRecs ++ pollutantRecs 30 10 5 :=
  ⟨by norm_num, (C9_recommendation_tiers 80 30 10 5).1 (by norm_num)⟩

/-- C10: the waypoint for the k-th intermediate city equals the catalog
coordinates exactly when the profile name contains "Fastest" (zero
jitter); otherwise a single uniform draw from [-0.05, 0.05] is added to
both the latitude and the longitude (the same draw on both axes, so the
jittered waypoint lies on the lat = lng diagonal through the city and the
offset is within the bounds); the source and destination waypoints are
never jittered. -/
theorem C10_city_jitter (source destination : Location) (name : String)
    (cities : List RouteCity) (r : ℕ → ℚ) (i k : ℕ) (c : RouteCity)
    (hc : cities[k]? = some c) :
    (strContains name "Fastest" = true →
      (waypointsOf source destination name cities r i)[k + 1]? =
        some ⟨c.lat, c.lng⟩) ∧
    (strContains name "Fastest" = false →
      (waypointsOf source destination name cities r i)[k + 1]? =
        some ⟨c.lat + uniform (-0.05) 0.05 (r (i + k)),
              c.lng + uniform (-0.05) 0.05 (r (i + k))⟩) ∧
    (∀ w, (waypointsOf source destination name cities r i)[k + 1]? = some w →
      w.lat - c.lat = w.lng - c.lng ∧
      ((∀ m, 0 ≤ r m ∧ r m ≤ 1) →
        -0.05 ≤ w.lat - c.lat ∧ w.lat - c.lat ≤ 0.05)) ∧
    (waypointsOf source destination name cities r i).head? =
      some ⟨source.lat, source.lng⟩ ∧
    (waypointsOf source destination name cities r i).getLast? =
      some ⟨destination.lat, destination.lng⟩ := by
  have hget := waypointsOf_get source destination name cities r i k c hc
  refine ⟨?_, ?_, ?_, waypointsOf_head source destination name cities r i,
    waypointsOf_getLast source destination name cities r i⟩
  · intro hF
    rw [hget]
    simp [routeVariation, hF]
  · intro hF
    rw [hget]
    simp [routeVariation, hF]
  · intro w hw
    rw [hget] at hw
    simp only [Option.some.injEq] at hw
    subst hw
    constructor
    · simp only
      ring
    · intro hr
      have hv : -0.05 ≤ routeVariation name r i k ∧ routeVariation name r i k ≤ 0.05 := by
        unfold routeVariation
        split_ifs with hF
        · norm_num
        · exact uniform_bounds (-0.05) 0.05 (r (i + k)) (by norm_num)
            (hr (i + k)).1 (hr (i + k)).2
      constructor
      · simp only
        linarith [hv.1]
      · simp only
        linarith [hv.2]

/-- Witness for C10: a non-Fastest profile jitters the single city by the
same draw on both axes; the endpoints stay exact. -/
theorem C10_city_jitter_witness :
    (waypointsOf wPoint wPointB "Cleanest Air Route" [wCity] wRand 0)[1]? =
      some ⟨wCity.lat + uniform (-0.05) 0.05 (wRand 0),
            wCity.lng + uniform (-0.05) 0.05 (wRand 0)⟩ ∧
    (waypointsOf wPoint wPointB "Cleanest Air Route" [wCity] wRand 0).head? =
      some ⟨wPoint.lat, wPoint.lng⟩ ∧
    (waypointsOf wPoint wPointB "Cleanest Air Route" [wCity] wRand 0).getLast? =
      some ⟨wPointB.lat, wPointB.lng⟩ := by
  obtain ⟨-, hjit, -, hhead, hlast⟩ :=
    C10_city_jitter wPoint wPointB "Cleanest Air Route" [wCity] wRand 0 0 wCity rfl
  exact ⟨by simpa using hjit (by decide), hhead, hlast⟩


/-- C4: the claim says the Route Portfolio Builder returns, for every
source/destination pair, exactly 3 RouteOptions sorted ascending by
pollution score.  The code never returns at all: on the first loop
iteration, after the `RouteOption` is constructed, the statement
`route.waypoint_details = waypoint_details` (server.py:334) assigns an
attribute the pydantic model does not declare, which raises `ValueError`
before any `routes.append`, so every call propagates an exception (the
route-calculation endpoint surfaces it as a generic 500).  First
conjunct: the builder errors on every input; second conjunct: at a
concrete request with distinct endpoints the error is exactly the
pydantic `ValueError` of line 334. -/
theorem C4_portfolio_builder_never_returns :
    (∀ (sqrtq : ℚ → ℚ) (source destination : Location) (r : ℕ → ℚ) (i : ℕ),
      ∃ e, calculate_routes_with_pollution sqrtq source destination r i = .error e) ∧
    calculate_routes_with_pollution id wPoint wPointB wRand 0 =
      .error WAYPOINT_DETAILS_ERROR := by
  constructor
  · intro sqrtq source destination r i
    cases hf : find_intermediate_cities source.lat source.lng destination.lat
        destination.lng cfgFastest.name with
    | error e =>
      have hb : buildRoutes sqrtq source destination route_configs r i = .error e := by
        simp only [route_configs, buildRoutes, hf]
      exact ⟨e, by unfold calculate_routes_with_pollution; rw [hb]⟩
    | ok cities =>
      have hb : buildRoutes sqrtq source destination route_configs r i =
          .error WAYPOINT_DETAILS_ERROR := by
        simp only [route_configs, buildRoutes, hf]
      exact ⟨WAYPOINT_DETAILS_ERROR, by unfold calculate_routes_with_pollution; rw [hb]⟩
  · obtain ⟨csF, hF⟩ := find_ok_of_ne wPoint.lat wPoint.lng wPointB.lat wPointB.lng
      "Fastest Route" (by norm_num [wPoint, wPointB])
    have hb : buildRoutes id wPoint wPointB route_configs wRand 0 =
        .error WAYPOINT_DETAILS_ERROR := by
      simp only [route_configs, buildRoutes, cfgFastest_name, hF]
    unfold calculate_routes_with_pollution
    rw [hb]

/-- C5: every RouteOption produced by the Route Synthesizer — the
per-profile loop body, whose `RouteOption` construction (server.py
lines 317-331) completes before the line-334 crash — satisfies: its
waypoints start at the request source and end at the request
destination, its pollution score lies in [0, 100], its distance is
non-negative, and its duration equals `round(distance * 1.3)` whole
minutes, for each of the three fixed profiles. -/
theorem C5_route_invariants (sqrtq : ℚ → ℚ) (source destination : Location)
    (config : RouteConfig) (cities : List RouteCity) (r : ℕ → ℚ) (i : ℕ)
    (hsq : ∀ x : ℚ, 0 ≤ x → 0 ≤ sqrtq x)
    (hcfg : config ∈ route_configs) :
    (assembleRoute sqrtq source destination config cities r i).waypoints.head? =
        some ⟨source.lat, source.lng⟩ ∧
    (assembleRoute sqrtq source destination config cities r i).waypoints.getLast? =
        some ⟨destination.lat, destination.lng⟩ ∧
    0 ≤ (assembleRoute sqrtq source destination config cities r i).pollution_score ∧
    (assembleRoute sqrtq source destination config cities r i).pollution_score ≤ 100 ∧
    0 ≤ (assembleRoute sqrtq source destination config cities r i).distance_km ∧
    (assembleRoute sqrtq source destination config cities r i).duration_minutes =
      pyRound ((assembleRoute sqrtq source destination config cities r i).distance_km * 1.3)
        0 := by
  have hdm : 0 ≤ config.distance_multiplier := by
    simp only [route_configs, List.mem_cons, List.not_mem_nil, or_false] at hcfg
    rcases hcfg with rfl | rfl | rfl <;> norm_num [cfgFastest, cfgCleanest, cfgBalanced]
  refine ⟨?_, ?_, ?_, ?_, ?_,
    assembleRoute_duration sqrtq source destination config cities r i⟩
  · rw [assembleRoute_waypoints]
    exact waypointsOf_head source destination config.name cities r i
  · rw [assembleRoute_waypoints]
    exact waypointsOf_getLast source destination config.name cities r i
  · rw [assembleRoute_score]
    exact pyRound_ge _ 0 1 0 (by norm_num) (scoreRawOf_nonneg _ _)
  · rw [assembleRoute_score]
    exact pyRound_le _ 100 1 1000 (by norm_num) (scoreRawOf_le_100 _ _)
  · rw [assembleRoute_distance]
    exact pyRound_ge _ 0 1 0 (by norm_num)
      (mul_nonneg (segmentSum_nonneg sqrtq hsq _) hdm)

/-- Witness for C5: the Fastest-profile route synthesized for the witness
request satisfies the endpoint, score, distance and duration
invariants. -/
theorem C5_route_invariants_witness :
    (assembleRoute id wPoint wPointB cfgFastest [] wRand 0).waypoints.head? =
        some ⟨wPoint.lat, wPoint.lng⟩ ∧
    (assembleRoute id wPoint wPointB cfgFastest [] wRand 0).waypoints.getLast? =
        some ⟨wPointB.lat, wPointB.lng⟩ ∧
    0 ≤ (assembleRoute id wPoint wPointB cfgFastest [] wRand 0).pollution_score ∧
    (assembleRoute id wPoint wPointB cfgFastest [] wRand 0).pollution_score ≤ 100 ∧
    0 ≤ (assembleRoute id wPoint wPointB cfgFastest [] wRand 0).distance_km ∧
    (assembleRoute id wPoint wPointB cfgFastest [] wRand 0).duration_minutes =
      pyRound ((assembleRoute id wPoint wPointB cfgFastest [] wRand 0).distance_km * 1.3)
        0 :=
  C5_route_invariants id wPoint wPointB cfgFastest [] wRand 0 (fun _ hx => hx)
    (by simp [route_configs])
